import Mathlib

/-!
# Verification of the AdmiralSquidstatWrapper session object

Shallow embedding of `src/admiral.py` (class `AdmiralSquidstatWrapper`).

The wrapper keeps three in-memory tables (AC samples, DC samples, new-element
steps), a fixed channel index, and forwards experiment parameters to a vendor
driver.  Pandas dataframes are modelled as Lean lists of row structures (the
column sets are fixed in the source); the dataframe `empty` test is `List.isEmpty`
and `pd.concat` with a one-row frame is appending one row.  Numeric measurement
values and parameters are modelled as rationals: the wrapper only copies them
and never computes with them, so the claims are representation-independent.

The vendor driver (`SquidstatPyLibrary`) is an external collaborator: it is
modelled as an abstract `InstrumentHandler` environment returning error codes,
and the driver-visible effects of an operation (which channel an experiment is
uploaded to / started on) are recorded as an explicit `DriverCall` trace.
`print` output is recorded as an explicit list of printed strings.
-/

/-- One AC (frequency-domain) payload delivered by the driver's
`activeACDataReady` callback.  The timestamp is optional because the source
guards every append on `data.timestamp is not None`. -/
structure AisACData where
  timestamp : Option Rat
  frequency : Rat
  absoluteImpedance : Rat
  phaseAngle : Rat
  realImpedance : Rat
  imagImpedance : Rat
  totalHarmonicDistortion : Rat
  numberOfCycles : Rat
  workingElectrodeDCVoltage : Rat
  DCCurrent : Rat
  currentAmplitude : Rat
  voltageAmplitude : Rat
  deriving DecidableEq

/-- One DC (time-domain) payload delivered by the driver's
`activeDCDataReady` callback. -/
structure AisDCData where
  timestamp : Option Rat
  workingElectrodeVoltage : Rat
  current : Rat
  temperature : Rat
  deriving DecidableEq

/-- One payload of the driver's `experimentNewElementStarting` callback. -/
structure AisNewElementData where
  stepName : String
  stepNumber : Nat
  substepNumber : Nat
  deriving DecidableEq

/-- One row of `ac_data_list` (columns "Timestamp" .. "Voltage Amplitude"). -/
structure AcRow where
  timestamp : Rat
  frequency : Rat
  absoluteImpedance : Rat
  phaseAngle : Rat
  realImpedance : Rat
  imagImpedance : Rat
  totalHarmonicDistortion : Rat
  numberOfCycles : Rat
  workingElectrodeDCVoltage : Rat
  DCCurrent : Rat
  currentAmplitude : Rat
  voltageAmplitude : Rat
  deriving DecidableEq

/-- One row of `dc_data_list` (columns "Timestamp", "Working Electrode
Voltage [V]", "Working Electrode Current [A]", "Temperature [C]"). -/
structure DcRow where
  timestamp : Rat
  workingElectrodeVoltage : Rat
  current : Rat
  temperature : Rat
  deriving DecidableEq

/-- One row of `new_element_list` (columns "Step Name", "Step Number",
"Substep Number"). -/
structure NewElementRow where
  stepName : String
  stepNumber : Nat
  substepNumber : Nat
  deriving DecidableEq

/-- The `AisEISPotentiostaticElement(start_frequency, end_frequency,
points_per_decade, voltage_bias, voltage_amplitude)` driver object, as the
record of the five constructor arguments in order. -/
structure AisEISPotentiostaticElement where
  startFrequency : Rat
  endFrequency : Rat
  pointsPerDecade : Int
  voltageBias : Rat
  voltageAmplitude : Rat
  deriving DecidableEq

/-- The `AisConstantCurrentElement(holdAtCurrent, samplingInterval, duration)`
driver object, as the record of the three constructor arguments in order. -/
structure AisConstantCurrentElement where
  holdAtCurrent : Rat
  samplingInterval : Rat
  duration : Rat
  deriving DecidableEq

/-- The driver experiment elements the modelled setup calls construct. -/
inductive AisElement where
  | EISPotentiostatic (element : AisEISPotentiostaticElement)
  | constantCurrent (element : AisConstantCurrentElement)
  deriving DecidableEq

/-- An `AisExperiment`: the ordered list of appended elements, each with the
repeat count passed to `appendElement` (1 when the source omits it). -/
structure AisExperiment where
  elements : List (AisElement × Nat)
  deriving DecidableEq

/-- `experiment.appendElement(element, count)`. -/
def AisExperiment.appendElement (experiment : AisExperiment)
    (element : AisElement) (count : Nat := 1) : AisExperiment :=
  { experiment with elements := experiment.elements ++ [(element, count)] }

/-- The driver error object: the comparison `error != 0` in the source is a
nonzero code, and `error.message()` is the message field. -/
structure AisErrorCode where
  code : Int
  message : String
  deriving DecidableEq

/-- The vendor instrument handler, abstracted as the error results it returns
for `uploadExperimentToChannel` and `startUploadedExperiment`. -/
structure InstrumentHandler where
  uploadResult : Nat → AisExperiment → AisErrorCode
  startResult : Nat → AisErrorCode

/-- A call made to the vendor driver, recorded with the channel it targets. -/
inductive DriverCall where
  | uploadExperimentToChannel (channel : Nat) (experiment : AisExperiment)
  | startUploadedExperiment (channel : Nat)
  deriving DecidableEq

/-- The mutable state of one `AdmiralSquidstatWrapper` session: the channel
index and the three accumulated tables. -/
structure AdmiralSquidstatWrapper where
  channel : Nat
  ac_data_list : List AcRow
  dc_data_list : List DcRow
  new_element_list : List NewElementRow
  deriving DecidableEq

/-- The state `__init__` establishes: `self.channel = 0` and the three tables
created empty (dataframes with only column headers). -/
def initState : AdmiralSquidstatWrapper :=
  { channel := 0, ac_data_list := [], dc_data_list := [], new_element_list := [] }

/-- `get_data`: the returned pair (AC result, DC result) together with the
printed lines.  Mirrors the source's `if self.ac_data_list.empty ... elif
self.dc_data_list.empty ... else ...` branch structure exactly. -/
def get_data (self : AdmiralSquidstatWrapper) :
    (Option (List AcRow) × Option (List DcRow)) × List String :=
  if self.ac_data_list.isEmpty then
    ((none, some self.dc_data_list), ["Returning data", "No AC data available \n"])
  else if self.dc_data_list.isEmpty then
    ((some self.ac_data_list, none), ["Returning data", "No DC data available \n"])
  else
    ((some self.ac_data_list, some self.dc_data_list), ["Returning data", ""])

/-- `clear_data`: reassigns `ac_data_list` and `dc_data_list` to fresh empty
dataframes; the reassignment of `new_element_list` is commented out in the
source, and `channel` is untouched. -/
def clear_data (self : AdmiralSquidstatWrapper) : AdmiralSquidstatWrapper :=
  { self with ac_data_list := [], dc_data_list := [] }

/-- The DC row built from a payload whose timestamp is present. -/
def dcRowOf (t : Rat) (data : AisDCData) : DcRow :=
  { timestamp := t, workingElectrodeVoltage := data.workingElectrodeVoltage,
    current := data.current, temperature := data.temperature }

/-- The AC row built from a payload whose timestamp is present. -/
def acRowOf (t : Rat) (data : AisACData) : AcRow :=
  { timestamp := t, frequency := data.frequency,
    absoluteImpedance := data.absoluteImpedance, phaseAngle := data.phaseAngle,
    realImpedance := data.realImpedance, imagImpedance := data.imagImpedance,
    totalHarmonicDistortion := data.totalHarmonicDistortion,
    numberOfCycles := data.numberOfCycles,
    workingElectrodeDCVoltage := data.workingElectrodeDCVoltage,
    DCCurrent := data.DCCurrent, currentAmplitude := data.currentAmplitude,
    voltageAmplitude := data.voltageAmplitude }

/-- `handle_dc_data(self, channel, data)`: when `data.timestamp is not None`,
concatenates one new row onto `dc_data_list`; otherwise the state is
unchanged.  The channel argument is ignored by the source body. -/
def handle_dc_data (self : AdmiralSquidstatWrapper) (channel : Nat)
    (data : AisDCData) : AdmiralSquidstatWrapper :=
  match data.timestamp with
  | some t => { self with dc_data_list := self.dc_data_list ++ [dcRowOf t data] }
  | none => self

/-- `handle_ac_data(self, channel, data)`: when `data.timestamp is not None`,
concatenates one new row onto `ac_data_list`; otherwise the state is
unchanged.  The channel argument is ignored by the source body. -/
def handle_ac_data (self : AdmiralSquidstatWrapper) (channel : Nat)
    (data : AisACData) : AdmiralSquidstatWrapper :=
  match data.timestamp with
  | some t => { self with ac_data_list := self.ac_data_list ++ [acRowOf t data] }
  | none => self

/-- `handle_new_element(self, channel, data)`: unconditionally concatenates
one new row onto `new_element_list`. -/
def handle_new_element (self : AdmiralSquidstatWrapper) (channel : Nat)
    (data : AisNewElementData) : AdmiralSquidstatWrapper :=
  { self with new_element_list := self.new_element_list ++
      [{ stepName := data.stepName, stepNumber := data.stepNumber,
         substepNumber := data.substepNumber }] }

/-- Delivering a sequence of `activeDCDataReady` callbacks (each a channel and
a payload) during one run. -/
def run_dc_callbacks (self : AdmiralSquidstatWrapper)
    (callbacks : List (Nat × AisDCData)) : AdmiralSquidstatWrapper :=
  callbacks.foldl (fun s cd => handle_dc_data s cd.1 cd.2) self

/-- Delivering a sequence of `activeACDataReady` callbacks (each a channel and
a payload) during one run. -/
def run_ac_callbacks (self : AdmiralSquidstatWrapper)
    (callbacks : List (Nat × AisACData)) : AdmiralSquidstatWrapper :=
  callbacks.foldl (fun s cd => handle_ac_data s cd.1 cd.2) self

/-- The DC rows a callback sequence contributes: one row per payload whose
timestamp is present, in delivery order. -/
def dcRows (callbacks : List (Nat × AisDCData)) : List DcRow :=
  callbacks.filterMap (fun cd => cd.2.timestamp.map (fun t => dcRowOf t cd.2))

/-- The AC rows a callback sequence contributes: one row per payload whose
timestamp is present, in delivery order. -/
def acRows (callbacks : List (Nat × AisACData)) : List AcRow :=
  callbacks.filterMap (fun cd => cd.2.timestamp.map (fun t => acRowOf t cd.2))

/-- `upload_experiment(self, experiment)`: calls
`self.handler.uploadExperimentToChannel(self.channel, experiment)` and prints
the error message when the returned error is nonzero.  Result: the driver
calls made and the lines printed.  The session state is not modified and no
exception is raised. -/
def upload_experiment (handler : InstrumentHandler)
    (self : AdmiralSquidstatWrapper) (experiment : AisExperiment) :
    List DriverCall × List String :=
  let error := handler.uploadResult self.channel experiment
  ([DriverCall.uploadExperimentToChannel self.channel experiment],
    ["Uploading experiment"] ++ (if error.code ≠ 0 then [error.message] else []))

/-- `start_experiment(self)`: calls
`self.handler.startUploadedExperiment(self.channel)` and prints the error
message when the returned error is nonzero. -/
def start_experiment (handler : InstrumentHandler)
    (self : AdmiralSquidstatWrapper) : List DriverCall × List String :=
  let error := handler.startResult self.channel
  ([DriverCall.startUploadedExperiment self.channel],
    ["Setting potentiostat in start experiment modus"] ++
      (if error.code ≠ 0 then [error.message] else []))

/-- The experiment object `setup_EIS_potentiostatic` builds: one
`AisEISPotentiostaticElement` appended with `number_of_runs`. -/
def eisExperiment (start_frequency end_frequency : Rat)
    (points_per_decade : Int) (voltage_bias voltage_amplitude : Rat)
    (number_of_runs : Nat) : AisExperiment :=
  AisExperiment.appendElement { elements := [] }
    (AisElement.EISPotentiostatic
      { startFrequency := start_frequency, endFrequency := end_frequency,
        pointsPerDecade := points_per_decade, voltageBias := voltage_bias,
        voltageAmplitude := voltage_amplitude })
    number_of_runs

/-- The experiment object `setup_constant_current` builds: one
`AisConstantCurrentElement` appended with the default count 1. -/
def ccExperiment (holdAtCurrent samplingInterval duration : Rat) :
    AisExperiment :=
  AisExperiment.appendElement { elements := [] }
    (AisElement.constantCurrent
      { holdAtCurrent := holdAtCurrent, samplingInterval := samplingInterval,
        duration := duration })

/-- `setup_EIS_potentiostatic`: builds the experiment, uploads it, starts it.
Result: the experiment object constructed, the driver calls made, the lines
printed. -/
def setup_EIS_potentiostatic (handler : InstrumentHandler)
    (self : AdmiralSquidstatWrapper) (start_frequency end_frequency : Rat)
    (points_per_decade : Int) (voltage_bias voltage_amplitude : Rat)
    (number_of_runs : Nat) : AisExperiment × List DriverCall × List String :=
  let experiment := eisExperiment start_frequency end_frequency
    points_per_decade voltage_bias voltage_amplitude number_of_runs
  let uploaded := upload_experiment handler self experiment
  let started := start_experiment handler self
  (experiment, uploaded.1 ++ started.1,
    ["\n*** Preparing EIS experiment"] ++ uploaded.2 ++ started.2)

/-- `setup_constant_current`: builds the experiment, uploads it, starts it. -/
def setup_constant_current (handler : InstrumentHandler)
    (self : AdmiralSquidstatWrapper)
    (holdAtCurrent samplingInterval duration : Rat) :
    AisExperiment × List DriverCall × List String :=
  let experiment := ccExperiment holdAtCurrent samplingInterval duration
  let uploaded := upload_experiment handler self experiment
  let started := start_experiment handler self
  (experiment, uploaded.1 ++ started.1,
    ["\n*** Preparing CP experiment"] ++ uploaded.2 ++ started.2)

/-- A DC payload with no timestamp (used for concrete evaluations). -/
def dcNoTimestamp : AisDCData :=
  { timestamp := none, workingElectrodeVoltage := 1, current := 2,
    temperature := 3 }

/-- An AC payload with no timestamp (used for concrete evaluations). -/
def acNoTimestamp : AisACData :=
  { timestamp := none, frequency := 1, absoluteImpedance := 2, phaseAngle := 3,
    realImpedance := 4, imagImpedance := 5, totalHarmonicDistortion := 6,
    numberOfCycles := 7, workingElectrodeDCVoltage := 8, DCCurrent := 9,
    currentAmplitude := 10, voltageAmplitude := 11 }

/-- A DC payload with a timestamp (used for concrete evaluations). -/
def dcSample : AisDCData :=
  { timestamp := some 5, workingElectrodeVoltage := 1, current := 2,
    temperature := 3 }

/-- An AC payload with a timestamp (used for concrete evaluations). -/
def acSample : AisACData :=
  { timestamp := some 5, frequency := 1, absoluteImpedance := 2, phaseAngle := 3,
    realImpedance := 4, imagImpedance := 5, totalHarmonicDistortion := 6,
    numberOfCycles := 7, workingElectrodeDCVoltage := 8, DCCurrent := 9,
    currentAmplitude := 10, voltageAmplitude := 11 }

/-- A handler whose upload and start both report nonzero errors (used for
concrete evaluations of the error paths). -/
def failingHandler : InstrumentHandler :=
  { uploadResult := fun _ _ => { code := 5, message := "upload failed" },
    startResult := fun _ => { code := 7, message := "device busy" } }

/-! ## Helper lemmas shared across claims -/

/-- One DC callback appends the row its payload's timestamp permits. -/
theorem handle_dc_data_dc_list (self : AdmiralSquidstatWrapper) (c : Nat)
    (d : AisDCData) :
    (handle_dc_data self c d).dc_data_list =
      self.dc_data_list ++ (d.timestamp.map (fun t => dcRowOf t d)).toList := by
  cases h : d.timestamp <;> simp [handle_dc_data, h]

/-- One AC callback appends the row its payload's timestamp permits. -/
theorem handle_ac_data_ac_list (self : AdmiralSquidstatWrapper) (c : Nat)
    (d : AisACData) :
    (handle_ac_data self c d).ac_data_list =
      self.ac_data_list ++ (d.timestamp.map (fun t => acRowOf t d)).toList := by
  cases h : d.timestamp <;> simp [handle_ac_data, h]

/-- The DC handler leaves every field but `dc_data_list` unchanged. -/
theorem handle_dc_data_frame (self : AdmiralSquidstatWrapper) (c : Nat)
    (d : AisDCData) :
    (handle_dc_data self c d).ac_data_list = self.ac_data_list ∧
    (handle_dc_data self c d).new_element_list = self.new_element_list ∧
    (handle_dc_data self c d).channel = self.channel := by
  cases h : d.timestamp <;> simp [handle_dc_data, h]

/-- The AC handler leaves every field but `ac_data_list` unchanged. -/
theorem handle_ac_data_frame (self : AdmiralSquidstatWrapper) (c : Nat)
    (d : AisACData) :
    (handle_ac_data self c d).dc_data_list = self.dc_data_list ∧
    (handle_ac_data self c d).new_element_list = self.new_element_list ∧
    (handle_ac_data self c d).channel = self.channel := by
  cases h : d.timestamp <;> simp [handle_ac_data, h]

/-- A run of DC callbacks appends exactly the rows of the timestamped
payloads, in delivery order. -/
theorem run_dc_callbacks_dc_list (self : AdmiralSquidstatWrapper)
    (callbacks : List (Nat × AisDCData)) :
    (run_dc_callbacks self callbacks).dc_data_list =
      self.dc_data_list ++ dcRows callbacks := by
  induction callbacks generalizing self with
  | nil => simp [run_dc_callbacks, dcRows]
  | cons cd rest ih =>
      have hstep : run_dc_callbacks self (cd :: rest) =
          run_dc_callbacks (handle_dc_data self cd.1 cd.2) rest := rfl
      rw [hstep, ih, handle_dc_data_dc_list]
      cases h : cd.2.timestamp <;>
        simp [dcRows, List.filterMap_cons, h]

/-- A run of AC callbacks appends exactly the rows of the timestamped
payloads, in delivery order. -/
theorem run_ac_callbacks_ac_list (self : AdmiralSquidstatWrapper)
    (callbacks : List (Nat × AisACData)) :
    (run_ac_callbacks self callbacks).ac_data_list =
      self.ac_data_list ++ acRows callbacks := by
  induction callbacks generalizing self with
  | nil => simp [run_ac_callbacks, acRows]
  | cons cd rest ih =>
      have hstep : run_ac_callbacks self (cd :: rest) =
          run_ac_callbacks (handle_ac_data self cd.1 cd.2) rest := rfl
      rw [hstep, ih, handle_ac_data_ac_list]
      cases h : cd.2.timestamp <;>
        simp [acRows, List.filterMap_cons, h]

/-- A run of DC callbacks never touches the AC table (nor the step table or
the channel). -/
theorem run_dc_callbacks_frame (self : AdmiralSquidstatWrapper)
    (callbacks : List (Nat × AisDCData)) :
    (run_dc_callbacks self callbacks).ac_data_list = self.ac_data_list ∧
    (run_dc_callbacks self callbacks).new_element_list = self.new_element_list ∧
    (run_dc_callbacks self callbacks).channel = self.channel := by
  induction callbacks generalizing self with
  | nil => exact ⟨rfl, rfl, rfl⟩
  | cons cd rest ih =>
      have hstep : run_dc_callbacks self (cd :: rest) =
          run_dc_callbacks (handle_dc_data self cd.1 cd.2) rest := rfl
      have hframe := handle_dc_data_frame self cd.1 cd.2
      have hrest := ih (handle_dc_data self cd.1 cd.2)
      exact ⟨by rw [hstep, hrest.1, hframe.1],
             by rw [hstep, hrest.2.1, hframe.2.1],
             by rw [hstep, hrest.2.2, hframe.2.2]⟩

/-- When every payload in the sequence carries a timestamp, one row is
contributed per callback. -/
theorem dcRows_length_of_isSome (callbacks : List (Nat × AisDCData))
    (h : ∀ cd ∈ callbacks, cd.2.timestamp.isSome) :
    (dcRows callbacks).length = callbacks.length := by
  induction callbacks with
  | nil => rfl
  | cons cd rest ih =>
      have hcd := h cd (List.mem_cons_self cd rest)
      obtain ⟨t, ht⟩ := Option.isSome_iff_exists.mp hcd
      have hrest := ih (fun x hx => h x (List.mem_cons_of_mem cd hx))
      simp [dcRows, List.filterMap_cons, ht] at hrest ⊢
      exact hrest

/-- When every payload in the sequence carries a timestamp, one row is
contributed per callback. -/
theorem acRows_length_of_isSome (callbacks : List (Nat × AisACData))
    (h : ∀ cd ∈ callbacks, cd.2.timestamp.isSome) :
    (acRows callbacks).length = callbacks.length := by
  induction callbacks with
  | nil => rfl
  | cons cd rest ih =>
      have hcd := h cd (List.mem_cons_self cd rest)
      obtain ⟨t, ht⟩ := Option.isSome_iff_exists.mp hcd
      have hrest := ih (fun x hx => h x (List.mem_cons_of_mem cd hx))
      simp [acRows, List.filterMap_cons, ht] at hrest ⊢
      exact hrest

/-! ## Claim theorems -/

/-- C1 (counterexample): on the all-empty session the claim "get_data returns
none for the DC table iff the DC table is empty, and prints both the no-AC and
no-DC indicators" fails: the DC table is empty yet the DC result is the empty
table `some []`, not `none`, and only the "No AC data available" line is
printed. -/
theorem get_data_both_empty_cex :
    initState.dc_data_list = [] ∧
    (get_data initState).1.2 = some [] ∧
    (get_data initState).1.2 ≠ none ∧
    (get_data initState).2 = ["Returning data", "No AC data available \n"] := by
  refine ⟨rfl, rfl, ?_, rfl⟩
  simp [get_data, initState]

/-- C1 (amended): `get_data` never crashes (it is a total function) and its
results are characterised by: the AC result is `none` iff the AC table is
empty, and the DC result is `none` iff the AC table is nonempty and the DC
table is empty (in the all-empty state the DC result is the empty DC table,
and only the no-AC-data indicator is printed). -/
theorem get_data_none_characterisation (self : AdmiralSquidstatWrapper) :
    ((get_data self).1.1 = none ↔ self.ac_data_list = []) ∧
    ((get_data self).1.2 = none ↔
      (self.ac_data_list ≠ [] ∧ self.dc_data_list = [])) := by
  by_cases hac : self.ac_data_list = [] <;>
    by_cases hdc : self.dc_data_list = [] <;>
      simp [get_data, hac, hdc]

/-- C3: the numeric parameters of `setup_EIS_potentiostatic` and
`setup_constant_current` are forwarded unchanged, in corresponding positions,
into the driver experiment element constructed for the call. -/
theorem setup_params_forwarded (handler : InstrumentHandler)
    (self : AdmiralSquidstatWrapper) (start_frequency end_frequency : Rat)
    (points_per_decade : Int) (voltage_bias voltage_amplitude : Rat)
    (number_of_runs : Nat) (holdAtCurrent samplingInterval duration : Rat) :
    (setup_EIS_potentiostatic handler self start_frequency end_frequency
        points_per_decade voltage_bias voltage_amplitude number_of_runs).1.elements
      = [(AisElement.EISPotentiostatic
            { startFrequency := start_frequency, endFrequency := end_frequency,
              pointsPerDecade := points_per_decade, voltageBias := voltage_bias,
              voltageAmplitude := voltage_amplitude }, number_of_runs)] ∧
    (setup_constant_current handler self holdAtCurrent samplingInterval
        duration).1.elements
      = [(AisElement.constantCurrent
            { holdAtCurrent := holdAtCurrent,
              samplingInterval := samplingInterval,
              duration := duration }, 1)] :=
  ⟨rfl, rfl⟩

/-- C5: `clear_data` leaves both the AC and the DC table empty, and `get_data`
right after `clear_data` returns results holding no rows for either table:
`none` (the no-AC-data indicator) for AC and the empty DC table for DC. -/
theorem clear_data_then_get_data (self : AdmiralSquidstatWrapper) :
    (clear_data self).ac_data_list = [] ∧
    (clear_data self).dc_data_list = [] ∧
    (get_data (clear_data self)).1.1 = none ∧
    (get_data (clear_data self)).1.2 = some [] := by
  refine ⟨rfl, rfl, ?_, ?_⟩ <;> simp [get_data, clear_data]

/-- C7: the channel index is 0 at construction, no operation changes it, and
every experiment upload and start targets `self.channel` — hence channel 0 on
every state reachable from construction. -/
theorem channel_fixed_at_zero :
    initState.channel = 0 ∧
    (∀ self c d, (handle_dc_data self c d).channel = self.channel) ∧
    (∀ self c d, (handle_ac_data self c d).channel = self.channel) ∧
    (∀ self c d, (handle_new_element self c d).channel = self.channel) ∧
    (∀ self, (clear_data self).channel = self.channel) ∧
    (∀ handler self e, (upload_experiment handler self e).1
        = [DriverCall.uploadExperimentToChannel self.channel e]) ∧
    (∀ handler self, (start_experiment handler self).1
        = [DriverCall.startUploadedExperiment self.channel]) :=
  ⟨rfl,
   fun self c d => (handle_dc_data_frame self c d).2.2,
   fun self c d => (handle_ac_data_frame self c d).2.2,
   fun _ _ _ => rfl,
   fun _ => rfl,
   fun _ _ _ => rfl,
   fun _ _ => rfl⟩

/-- C9: `clear_data` modifies only the AC and DC tables: the step table
`new_element_list` (and the channel) are unchanged by every `clear_data`
call, so rows appended by `handle_new_element` persist across resets. -/
theorem clear_data_preserves_new_element_list (self : AdmiralSquidstatWrapper) :
    (clear_data self).new_element_list = self.new_element_list ∧
    (clear_data self).channel = self.channel ∧
    (∀ c d, (clear_data (handle_new_element self c d)).new_element_list
        = self.new_element_list ++
          [{ stepName := d.stepName, stepNumber := d.stepNumber,
             substepNumber := d.substepNumber }]) :=
  ⟨rfl, rfl, fun _ _ => rfl⟩

/-- C2 (counterexample): one AC callback whose payload has no timestamp is
delivered, yet the AC table has 0 rows afterwards, not 1 — the row count does
not equal the callback count for every callback sequence. -/
theorem ac_row_count_cex :
    (run_ac_callbacks initState [(0, acNoTimestamp)]).ac_data_list.length = 0 ∧
    [(0, acNoTimestamp)].length = 1 :=
  ⟨rfl, rfl⟩

/-- C2 (amended): for every sequence of AC callbacks whose payloads all carry
a (non-None) timestamp, the number of rows added to the AC table equals the
number of callbacks delivered, each callback appends its row at the end
leaving all previously accumulated rows unchanged, and the added rows are the
callbacks' rows in delivery order. -/
theorem ac_rows_in_delivery_order (self : AdmiralSquidstatWrapper)
    (callbacks : List (Nat × AisACData))
    (h : ∀ cd ∈ callbacks, cd.2.timestamp.isSome) :
    (run_ac_callbacks self callbacks).ac_data_list.length
      = self.ac_data_list.length + callbacks.length ∧
    (run_ac_callbacks self callbacks).ac_data_list.take
        self.ac_data_list.length = self.ac_data_list ∧
    (run_ac_callbacks self callbacks).ac_data_list
      = self.ac_data_list ++ acRows callbacks := by
  have hspec := run_ac_callbacks_ac_list self callbacks
  have hlen := acRows_length_of_isSome callbacks h
  refine ⟨?_, ?_, hspec⟩
  · rw [hspec, List.length_append, hlen]
  · rw [hspec, List.take_left]

/-- C2 witness: the amended theorem at a concrete state and one timestamped
callback. -/
theorem ac_rows_in_delivery_order_witness :
    (run_ac_callbacks initState [(0, acSample)]).ac_data_list.length
      = initState.ac_data_list.length + [(0, acSample)].length ∧
    (run_ac_callbacks initState [(0, acSample)]).ac_data_list.take
        initState.ac_data_list.length = initState.ac_data_list ∧
    (run_ac_callbacks initState [(0, acSample)]).ac_data_list
      = initState.ac_data_list ++ acRows [(0, acSample)] :=
  ac_rows_in_delivery_order initState [(0, acSample)]
    (by intro cd hcd; simp at hcd; subst hcd; rfl)

/-- C4 (counterexample): a run delivering exactly one DC sample (whose payload
has no timestamp) leaves the DC table empty — "the DC table is non-empty when
at least one sample is delivered" fails as universally stated. -/
theorem dc_only_run_cex :
    [(0, dcNoTimestamp)].length = 1 ∧
    (run_dc_callbacks initState [(0, dcNoTimestamp)]).dc_data_list = [] ∧
    (run_dc_callbacks initState [(0, dcNoTimestamp)]).ac_data_list = [] :=
  ⟨rfl, rfl, rfl⟩

/-- C4 (amended): a run during which only DC callbacks are delivered leaves
the AC table exactly as it was (so empty if it started empty), the DC handler
never modifies the AC table and the AC handler never modifies the DC table,
and when at least one delivered sample carries a (non-None) timestamp the DC
table is non-empty afterwards. -/
theorem dc_only_run_tables (self : AdmiralSquidstatWrapper)
    (callbacks : List (Nat × AisDCData))
    (h : ∃ cd ∈ callbacks, cd.2.timestamp.isSome) :
    (run_dc_callbacks self callbacks).ac_data_list = self.ac_data_list ∧
    (run_dc_callbacks self callbacks).dc_data_list ≠ [] ∧
    (∀ c d, (handle_dc_data self c d).ac_data_list = self.ac_data_list) ∧
    (∀ c d, (handle_ac_data self c d).dc_data_list = self.dc_data_list) := by
  refine ⟨(run_dc_callbacks_frame self callbacks).1, ?_,
    fun c d => (handle_dc_data_frame self c d).1,
    fun c d => (handle_ac_data_frame self c d).1⟩
  obtain ⟨cd, hmem, hsome⟩ := h
  obtain ⟨t, ht⟩ := Option.isSome_iff_exists.mp hsome
  have hrow : dcRowOf t cd.2 ∈ dcRows callbacks := by
    apply List.mem_filterMap.mpr
    exact ⟨cd, hmem, by rw [ht]; rfl⟩
  have : dcRowOf t cd.2 ∈ (run_dc_callbacks self callbacks).dc_data_list := by
    rw [run_dc_callbacks_dc_list]
    exact List.mem_append_right _ hrow
  exact List.ne_nil_of_mem this

/-- C4 witness: the amended theorem at a concrete state and one timestamped
DC callback. -/
theorem dc_only_run_tables_witness :
    (run_dc_callbacks initState [(0, dcSample)]).ac_data_list
      = initState.ac_data_list ∧
    (run_dc_callbacks initState [(0, dcSample)]).dc_data_list ≠ [] ∧
    (∀ c d, (handle_dc_data initState c d).ac_data_list
      = initState.ac_data_list) ∧
    (∀ c d, (handle_ac_data initState c d).dc_data_list
      = initState.dc_data_list) :=
  dc_only_run_tables initState [(0, dcSample)]
    ⟨(0, dcSample), by simp, rfl⟩

/-- C8: a DC or AC callback whose payload's timestamp is None appends no row
and leaves the entire session state (both tables, the step table and the
channel) unchanged: such samples are silently dropped. -/
theorem none_timestamp_dropped (self : AdmiralSquidstatWrapper) (c : Nat)
    (dd : AisDCData) (ad : AisACData)
    (hd : dd.timestamp = none) (ha : ad.timestamp = none) :
    handle_dc_data self c dd = self ∧ handle_ac_data self c ad = self := by
  constructor
  · unfold handle_dc_data; rw [hd]
  · unfold handle_ac_data; rw [ha]

/-- C8 witness: the theorem at a concrete state and concrete timestamp-less
payloads. -/
theorem none_timestamp_dropped_witness :
    handle_dc_data initState 0 dcNoTimestamp = initState ∧
    handle_ac_data initState 0 acNoTimestamp = initState :=
  none_timestamp_dropped initState 0 dcNoTimestamp acNoTimestamp rfl rfl

/-- C6 (counterexample): with a driver reporting a nonzero upload error, the
setup call neither fails fast nor propagates the error to the caller: it only
prints the message and still issues the start call to the driver. -/
theorem upload_error_not_propagated_cex :
    (failingHandler.uploadResult 0 (eisExperiment 1 1 1 1 1 1)).code ≠ 0 ∧
    (setup_EIS_potentiostatic failingHandler initState 1 1 1 1 1 1).2.1
      = [DriverCall.uploadExperimentToChannel 0 (eisExperiment 1 1 1 1 1 1),
         DriverCall.startUploadedExperiment 0] ∧
    (setup_EIS_potentiostatic failingHandler initState 1 1 1 1 1 1).2.2
      = ["\n*** Preparing EIS experiment", "Uploading experiment",
         "upload failed", "Setting potentiostat in start experiment modus",
         "device busy"] :=
  ⟨by decide, rfl, rfl⟩

/-- C6 (amended): on a nonzero driver error from uploading or starting, the
wrapper surfaces the driver's error message by printing it, and performs no
retry or local recovery (exactly one upload call and one start call are made);
but the error is not propagated to the caller and execution does not fail
fast: the setup call still issues the start call after a failed upload. -/
theorem driver_error_surfaced_only (handler : InstrumentHandler)
    (self : AdmiralSquidstatWrapper) (experiment : AisExperiment)
    (hup : (handler.uploadResult self.channel experiment).code ≠ 0)
    (hst : (handler.startResult self.channel).code ≠ 0) :
    (upload_experiment handler self experiment).2
      = ["Uploading experiment",
         (handler.uploadResult self.channel experiment).message] ∧
    (upload_experiment handler self experiment).1
      = [DriverCall.uploadExperimentToChannel self.channel experiment] ∧
    (start_experiment handler self).2
      = ["Setting potentiostat in start experiment modus",
         (handler.startResult self.channel).message] ∧
    (start_experiment handler self).1
      = [DriverCall.startUploadedExperiment self.channel] ∧
    (∀ fa fb pd vb va nr,
      (setup_EIS_potentiostatic handler self fa fb pd vb va nr).2.1
        = [DriverCall.uploadExperimentToChannel self.channel
             (eisExperiment fa fb pd vb va nr),
           DriverCall.startUploadedExperiment self.channel]) := by
  refine ⟨?_, rfl, ?_, rfl, fun _ _ _ _ _ _ => rfl⟩
  · simp [upload_experiment, hup]
  · simp [start_experiment, hst]

/-- C6 witness: the amended theorem at the concrete failing handler. -/
theorem driver_error_surfaced_only_witness :
    (upload_experiment failingHandler initState (eisExperiment 1 1 1 1 1 1)).2
      = ["Uploading experiment",
         (failingHandler.uploadResult initState.channel
            (eisExperiment 1 1 1 1 1 1)).message] ∧
    (upload_experiment failingHandler initState (eisExperiment 1 1 1 1 1 1)).1
      = [DriverCall.uploadExperimentToChannel initState.channel
           (eisExperiment 1 1 1 1 1 1)] ∧
    (start_experiment failingHandler initState).2
      = ["Setting potentiostat in start experiment modus",
         (failingHandler.startResult initState.channel).message] ∧
    (start_experiment failingHandler initState).1
      = [DriverCall.startUploadedExperiment initState.channel] ∧
    (∀ fa fb pd vb va nr,
      (setup_EIS_potentiostatic failingHandler initState fa fb pd vb va nr).2.1
        = [DriverCall.uploadExperimentToChannel initState.channel
             (eisExperiment fa fb pd vb va nr),
           DriverCall.startUploadedExperiment initState.channel]) :=
  driver_error_surfaced_only failingHandler initState
    (eisExperiment 1 1 1 1 1 1) (by decide) (by decide)

/-- C10: a nonzero error from the driver's upload step raises no exception
and does not abort the run: the error message is printed, and the start call
is still issued to the channel after the failed upload. -/
theorem failed_upload_still_starts (handler : InstrumentHandler)
    (self : AdmiralSquidstatWrapper) (fa fb : Rat) (pd : Int) (vb va : Rat)
    (nr : Nat)
    (h : (handler.uploadResult self.channel
            (eisExperiment fa fb pd vb va nr)).code ≠ 0) :
    (handler.uploadResult self.channel (eisExperiment fa fb pd vb va nr)).message
      ∈ (setup_EIS_potentiostatic handler self fa fb pd vb va nr).2.2 ∧
    (setup_EIS_potentiostatic handler self fa fb pd vb va nr).2.1
      = [DriverCall.uploadExperimentToChannel self.channel
           (eisExperiment fa fb pd vb va nr),
         DriverCall.startUploadedExperiment self.channel] := by
  refine ⟨?_, rfl⟩
  simp [setup_EIS_potentiostatic, upload_experiment, start_experiment, h]

/-- C10 witness: the theorem at the concrete failing handler and concrete
parameters. -/
theorem failed_upload_still_starts_witness :
    (failingHandler.uploadResult initState.channel
        (eisExperiment 1 1 1 1 1 1)).message
      ∈ (setup_EIS_potentiostatic failingHandler initState 1 1 1 1 1 1).2.2 ∧
    (setup_EIS_potentiostatic failingHandler initState 1 1 1 1 1 1).2.1
      = [DriverCall.uploadExperimentToChannel initState.channel
           (eisExperiment 1 1 1 1 1 1),
         DriverCall.startUploadedExperiment initState.channel] :=
  failed_upload_still_starts failingHandler initState 1 1 1 1 1 1 (by decide)
